import Mathlib

/-!
Shallow embedding of the `styled-output` Rust crate, covering the ANSI style
encoder (`src/style.rs`) and the memoized stream-capability cache
(`src/stream_info.rs`), together with theorems settling the specification
claims about them.
-/

namespace StyledOutput

/-- ANSI control sequence that resets all styling (`RESET_STYLE` in `style.rs`). -/
def RESET_STYLE : String := "\x1b[0m"

/-- Text color (`Color` in `style.rs`, 17 variants; the source spells `Magena`). -/
inductive Color where
  | Default
  | Black
  | Red
  | Green
  | Yellow
  | Blue
  | Magena
  | Cyan
  | LightGray
  | DarkGray
  | LightRed
  | LightGreen
  | LightYellow
  | LightBlue
  | LightMagenta
  | LightCyan
  | White
deriving DecidableEq, Repr, Fintype

/-- ANSI color code if the color is used for the foreground
(`Color::foreground_code`). -/
def Color.foreground_code : Color → String
  | .Default => "39"
  | .Black => "30"
  | .Red => "31"
  | .Green => "32"
  | .Yellow => "33"
  | .Blue => "34"
  | .Magena => "35"
  | .Cyan => "36"
  | .LightGray => "37"
  | .DarkGray => "90"
  | .LightRed => "91"
  | .LightGreen => "92"
  | .LightYellow => "93"
  | .LightBlue => "94"
  | .LightMagenta => "95"
  | .LightCyan => "96"
  | .White => "97"

/-- ANSI color code if the color is used for the background
(`Color::background_code`). -/
def Color.background_code : Color → String
  | .Default => "49"
  | .Black => "40"
  | .Red => "41"
  | .Green => "42"
  | .Yellow => "43"
  | .Blue => "44"
  | .Magena => "45"
  | .Cyan => "46"
  | .LightGray => "47"
  | .DarkGray => "100"
  | .LightRed => "101"
  | .LightGreen => "102"
  | .LightYellow => "103"
  | .LightBlue => "104"
  | .LightMagenta => "105"
  | .LightCyan => "106"
  | .White => "107"

/-- Text color and attributes (`Style` in `style.rs`). -/
structure Style where
  foreground_color : Color
  background_color : Color
  bold : Bool
  underlined : Bool
  blinking : Bool
deriving DecidableEq, Repr

/-- The default style: both colors `Default`, all attribute flags false
(the `Default` derive on `Style`). -/
def Style.default : Style :=
  { foreground_color := Color.Default
    background_color := Color.Default
    bold := false
    underlined := false
    blinking := false }

/-- The 15-slot scratch buffer created by `Style::new_set_style_buffer`.
A slot holding `none` models an uninitialized `MaybeUninit<u8>` element. -/
def new_set_style_buffer : List (Option Char) := List.replicate 15 none

/-- Appends an ASCII character to the buffer (`push_ascii` in `Style::set_style`).
The source asserts `ch.is_ascii()` and indexes `buffer[*len]`, which panics when
`len` is out of bounds; `none` models those panics. -/
def push_ascii (buffer : List (Option Char)) (len : Nat) (ch : Char) :
    Option (List (Option Char) × Nat) :=
  if ch.toNat < 128 ∧ len < buffer.length then
    some (buffer.set len (some ch), len + 1)
  else
    none

/-- Appends a string slice to the buffer (`push_str` in `Style::set_style`).
The source copies into the slice `buffer[*len..*len + string_len]`, which panics
when the range exceeds the buffer; `none` models that panic. -/
def push_str (buffer : List (Option Char)) (len : Nat) (string : String) :
    Option (List (Option Char) × Nat) :=
  let string_len := string.length
  if len + string_len ≤ buffer.length then
    some (buffer.take len ++ string.data.map some ++ buffer.drop (len + string_len),
      len + string_len)
  else
    none

/-- Stores the Control Sequence Introducer in the buffer if it is empty, otherwise
appends a semicolon (the first helper inside `Style::set_style`). -/
def push_prefix (buffer : List (Option Char)) (len : Nat) :
    Option (List (Option Char) × Nat) :=
  if len = 0 then
    push_str buffer len "\x1b["
  else
    push_ascii buffer len ';'

/-- One color block of `Style::set_style`: if the color is not `Default`, push
the separator or CSI, then the color code. -/
def style_step_color (active : Bool) (code : String) (r : List (Option Char) × Nat) :
    Option (List (Option Char) × Nat) :=
  if active then
    ( push_prefix r.1 r.2).bind fun r => push_str r.1 r.2 code
  else
    some r

/-- One attribute block of `Style::set_style`: if the attribute is set, push the
separator or CSI, then the attribute code character. -/
def style_step_ascii (active : Bool) (ch : Char) (r : List (Option Char) × Nat) :
    Option (List (Option Char) × Nat) :=
  if active then
    ( push_prefix r.1 r.2).bind fun r => push_ascii r.1 r.2 ch
  else
    some r

/-- The closing step of `Style::set_style`: terminate the sequence with `m`
only if at least one part was emitted. -/
def style_finish (r : List (Option Char) × Nat) : Option (List (Option Char) × Nat) :=
  if r.2 ≠ 0 then push_ascii r.1 r.2 'm' else some r

/-- `Style::set_style`: writes the ANSI control sequence that sets this style
into the 15-byte buffer and returns the string containing the control sequence.
Each inline block of the source is one `style_step_color` / `style_step_ascii` /
`style_finish` application, in the source's order; `none` models a panic (an
out-of-bounds buffer access), and the final `mapM id` models reading back
exactly the first `len` slots, all of which must be initialized. -/
def Style.set_style (self : Style) : Option String := do
  let r : List (Option Char) × Nat := (new_set_style_buffer, 0)
  let r ← style_step_color (self.foreground_color != Color.Default)
    self.foreground_color.foreground_code r
  let r ← style_step_color (self.background_color != Color.Default)
    self.background_color.background_code r
  let r ← style_step_ascii self.bold '1' r
  let r ← style_step_ascii self.underlined '4' r
  let r ← style_step_ascii self.blinking '5' r
  let r ← style_finish r
  let out ← (r.1.take r.2).mapM id
  pure (String.mk out)

/-- A buffer whose first slots hold exactly the characters of `w` and whose
remaining slots are uninitialized. -/
def goodBuf (w : List Char) : List (Option Char) := w.map some ++ List.replicate (15 - w.length) none

/-- Appending one part to the accumulated output: CSI when nothing was emitted
yet, a separator otherwise, then the part. -/
def emit (w p : List Char) : List Char :=
  (if w.isEmpty then "\x1b[".data else w ++ [';']) ++ p

def emitIf (a : Bool) (w p : List Char) : List Char := if a then emit w p else w

def finalizeStyle (w : List Char) : List Char := if w.isEmpty then w else w ++ ['m']

lemma goodBuf_length (w : List Char) (h : w.length ≤ 15) : (goodBuf w).length = 15 := by
  simp [goodBuf]
  omega

lemma push_str_goodBuf (w : List Char) (n : Nat) (p : String) (hn : n = w.length)
    (h : w.length + p.length ≤ 15) :
    push_str (goodBuf w) n p = some (goodBuf (w ++ p.data), n + p.length) := by
  subst hn
  have hw : w.length ≤ 15 := by omega
  simp only [push_str, goodBuf_length w hw, if_pos h]
  refine congrArg some (Prod.ext_iff.mpr ⟨?_, rfl⟩)
  have ht : (goodBuf w).take w.length = w.map some := by
    simp only [goodBuf]
    exact List.take_left' (List.length_map w some)
  have hd : (goodBuf w).drop (w.length + p.length) =
      List.replicate (15 - w.length - p.length) (none : Option Char) := by
    have h1 : (goodBuf w).drop (w.length + p.length) =
        ((goodBuf w).drop w.length).drop p.length := by
      rw [List.drop_drop]
    have h2 : (goodBuf w).drop w.length = List.replicate (15 - w.length) (none : Option Char) := by
      simp only [goodBuf]
      exact List.drop_left' (List.length_map w some)
    rw [h1, h2, List.drop_replicate]
  rw [ht, hd]
  simp only [goodBuf, List.map_append, List.length_append]
  have : 15 - w.length - p.length = 15 - (w.length + p.data.length) := by
    have : p.length = p.data.length := rfl
    omega
  rw [this]

lemma push_ascii_goodBuf (w : List Char) (n : Nat) (ch : Char) (hn : n = w.length)
    (h : w.length < 15) (hch : ch.toNat < 128) :
    push_ascii (goodBuf w) n ch = some (goodBuf (w ++ [ch]), n + 1) := by
  subst hn
  have hw : w.length ≤ 15 := le_of_lt h
  simp only [push_ascii, goodBuf_length w hw]
  rw [if_pos ⟨hch, h⟩]
  refine congrArg some (Prod.ext_iff.mpr ⟨?_, rfl⟩)
  simp only [goodBuf]
  rw [List.set_append_right _ _ (by simp)]
  have hk : 15 - w.length = (15 - (w.length + 1)) + 1 := by omega
  rw [hk, List.replicate_succ]
  simp [List.length_append]

lemma emit_length (w p : List Char) :
    (emit w p).length = (if w.isEmpty then 2 else w.length + 1) + p.length := by
  cases w <;> simp [emit] <;> omega

lemma style_step_color_goodBuf (a : Bool) (code : String) (w : List Char)
    (h : (emitIf a w code.data).length ≤ 15) :
    style_step_color a code (goodBuf w, w.length) =
      some (goodBuf (emitIf a w code.data), (emitIf a w code.data).length) := by
  cases a with
  | false => simp [style_step_color, emitIf]
  | true =>
    simp only [emitIf, if_true] at h ⊢
    rw [emit_length] at h
    simp only [style_step_color, if_true, push_prefix]
    cases w with
    | nil =>
      simp only [List.length_nil, if_true]
      have h2 : ("\x1b[".data).length = 2 := rfl
      simp only [List.isEmpty_nil, if_true] at h
      rw [push_str_goodBuf [] 0 "\x1b[" rfl (by decide), Option.some_bind]
      simp only [List.nil_append]
      rw [push_str_goodBuf "\x1b[".data (0 + "\x1b[".length) code (by rw [h2]; rfl)
        (by rw [h2]; have hc : code.length = code.data.length := rfl; omega)]
      refine congrArg some (Prod.ext_iff.mpr ⟨rfl, ?_⟩)
      have e1 : emit [] code.data = "\x1b[".data ++ code.data := rfl
      rw [e1, List.length_append, h2]
      have hc : code.length = code.data.length := rfl
      have h3 : "\x1b[".length = 2 := rfl
      omega
    | cons c cs =>
      rw [List.isEmpty_cons, if_neg Bool.false_ne_true] at h
      simp only [List.length_cons]
      rw [if_neg (Nat.succ_ne_zero _)]
      have h1 : (c :: cs).length < 15 := by
        simp only [List.length_cons] at h ⊢
        omega
      rw [push_ascii_goodBuf (c :: cs) (cs.length + 1) ';' (by simp) h1 (by decide),
        Option.some_bind]
      rw [push_str_goodBuf ((c :: cs) ++ [';']) (cs.length + 1 + 1) code (by simp)
        (by
          simp only [List.length_append, List.length_cons, List.length_nil] at h ⊢
          have hc : code.length = code.data.length := rfl
          omega)]
      refine congrArg some (Prod.ext_iff.mpr ⟨rfl, ?_⟩)
      have e1 : emit (c :: cs) code.data = ((c :: cs) ++ [';']) ++ code.data := rfl
      rw [e1, List.length_append, List.length_append]
      have hc : code.length = code.data.length := rfl
      simp only [List.length_cons, List.length_nil]
      omega


lemma style_step_ascii_goodBuf (a : Bool) (ch : Char) (w : List Char)
    (h : (emitIf a w [ch]).length ≤ 15) (hch : ch.toNat < 128) :
    style_step_ascii a ch (goodBuf w, w.length) =
      some (goodBuf (emitIf a w [ch]), (emitIf a w [ch]).length) := by
  cases a with
  | false => simp [style_step_ascii, emitIf]
  | true =>
    simp only [emitIf, if_true] at h ⊢
    rw [emit_length] at h
    simp only [style_step_ascii, if_true, push_prefix]
    cases w with
    | nil =>
      simp only [List.length_nil, if_true]
      rw [push_str_goodBuf [] 0 "\x1b[" rfl (by decide), Option.some_bind]
      simp only [List.nil_append]
      rw [push_ascii_goodBuf "\x1b[".data (0 + "\x1b[".length) ch rfl (by decide) hch]
      refine congrArg some (Prod.ext_iff.mpr ⟨rfl, ?_⟩)
      have e1 : emit [] [ch] = "\x1b[".data ++ [ch] := rfl
      rw [e1, List.length_append]
      have hs1 : "\x1b[".length = 2 := rfl
      have hs2 : "\x1b[".data.length = 2 := rfl
      simp only [List.length_cons, List.length_nil]
      omega
    | cons c cs =>
      rw [List.isEmpty_cons, if_neg Bool.false_ne_true] at h
      simp only [List.length_cons]
      rw [if_neg (Nat.succ_ne_zero _)]
      have h1 : (c :: cs).length < 15 := by
        simp only [List.length_cons, List.length_nil] at h ⊢
        omega
      rw [push_ascii_goodBuf (c :: cs) (cs.length + 1) ';' (by simp) h1 (by decide),
        Option.some_bind]
      have h2 : ((c :: cs) ++ [';']).length < 15 := by
        simp only [List.length_append, List.length_cons, List.length_nil] at h ⊢
        omega
      rw [push_ascii_goodBuf ((c :: cs) ++ [';']) (cs.length + 1 + 1) ch (by simp) h2 hch]
      refine congrArg some (Prod.ext_iff.mpr ⟨rfl, ?_⟩)
      have e1 : emit (c :: cs) [ch] = ((c :: cs) ++ [';']) ++ [ch] := rfl
      rw [e1, List.length_append, List.length_append]
      simp only [List.length_cons, List.length_nil]

lemma style_final_goodBuf (w : List Char) (h : (finalizeStyle w).length ≤ 15) :
    style_finish (goodBuf w, w.length) =
      some (goodBuf (finalizeStyle w), (finalizeStyle w).length) := by
  cases w with
  | nil => simp [style_finish, finalizeStyle, goodBuf]
  | cons c cs =>
    simp only [style_finish]
    rw [if_pos (by simp)]
    have e1 : finalizeStyle (c :: cs) = (c :: cs) ++ ['m'] := rfl
    rw [e1] at h
    have h1 : (c :: cs).length < 15 := by
      simp only [List.length_append, List.length_cons, List.length_nil] at h ⊢
      omega
    rw [push_ascii_goodBuf (c :: cs) (c :: cs).length 'm' rfl h1 (by decide)]
    rw [e1]
    refine congrArg some (Prod.ext_iff.mpr ⟨rfl, ?_⟩)
    simp

lemma goodBuf_take (w : List Char) : (goodBuf w).take w.length = w.map some := by
  simp only [goodBuf]
  exact List.take_left' (List.length_map w some)

lemma mapM_map_some (w : List Char) : (w.map some).mapM id = some w := by
  induction w with
  | nil => rfl
  | cons c cs ih =>
    rw [List.map_cons, List.mapM_cons, ih]
    rfl

lemma take_mapM_goodBuf (w : List Char) :
    ((goodBuf w).take w.length).mapM id = some w := by
  rw [goodBuf_take, mapM_map_some]

lemma emitIf_length_le (a : Bool) (w p : List Char) :
    (emitIf a w p).length ≤ max (w.length + 1 + p.length) (2 + p.length) := by
  cases a with
  | false =>
    simp only [emitIf, if_false, Bool.false_eq_true]
    omega
  | true =>
    simp only [emitIf, if_true]
    rw [emit_length]
    split <;> omega

lemma finalize_length_le (w : List Char) : (finalizeStyle w).length ≤ w.length + 1 := by
  cases w <;> simp [finalizeStyle]

lemma foreground_code_data_length (c : Color) :
    (Color.foreground_code c).data.length = 2 := by
  cases c <;> rfl

lemma background_code_data_length (c : Color) :
    (Color.background_code c).data.length ≤ 3 := by
  cases c <;> decide

/-- The characters produced by the encoder: the five parts folded in the fixed
order onto the empty output, then the final `m` when anything was emitted. -/
def styleChars (s : Style) : List Char :=
  finalizeStyle
    (emitIf s.blinking
      (emitIf s.underlined
        (emitIf s.bold
          (emitIf (s.background_color != Color.Default)
            (emitIf (s.foreground_color != Color.Default) []
              s.foreground_color.foreground_code.data)
            s.background_color.background_code.data)
          ['1'])
        ['4'])
      ['5'])

theorem set_style_chars (s : Style) : s.set_style = some (String.mk (styleChars s)) := by
  obtain ⟨fg, bg, b, u, l⟩ := s
  have lf := foreground_code_data_length fg
  have lb := background_code_data_length bg
  have b1 : (emitIf (fg != Color.Default) [] fg.foreground_code.data).length ≤ 4 := by
    have := emitIf_length_le (fg != Color.Default) [] fg.foreground_code.data
    simp only [List.length_nil] at this
    omega
  have b2 : (emitIf (bg != Color.Default)
      (emitIf (fg != Color.Default) [] fg.foreground_code.data)
      bg.background_code.data).length ≤ 8 := by
    have := emitIf_length_le (bg != Color.Default)
      (emitIf (fg != Color.Default) [] fg.foreground_code.data) bg.background_code.data
    omega
  have b3 : (emitIf b (emitIf (bg != Color.Default)
      (emitIf (fg != Color.Default) [] fg.foreground_code.data)
      bg.background_code.data) ['1']).length ≤ 10 := by
    have := emitIf_length_le b (emitIf (bg != Color.Default)
      (emitIf (fg != Color.Default) [] fg.foreground_code.data)
      bg.background_code.data) ['1']
    simp only [List.length_cons, List.length_nil] at this
    omega
  have b4 : (emitIf u (emitIf b (emitIf (bg != Color.Default)
      (emitIf (fg != Color.Default) [] fg.foreground_code.data)
      bg.background_code.data) ['1']) ['4']).length ≤ 12 := by
    have := emitIf_length_le u (emitIf b (emitIf (bg != Color.Default)
      (emitIf (fg != Color.Default) [] fg.foreground_code.data)
      bg.background_code.data) ['1']) ['4']
    simp only [List.length_cons, List.length_nil] at this
    omega
  have b5 : (emitIf l (emitIf u (emitIf b (emitIf (bg != Color.Default)
      (emitIf (fg != Color.Default) [] fg.foreground_code.data)
      bg.background_code.data) ['1']) ['4']) ['5']).length ≤ 14 := by
    have := emitIf_length_le l (emitIf u (emitIf b (emitIf (bg != Color.Default)
      (emitIf (fg != Color.Default) [] fg.foreground_code.data)
      bg.background_code.data) ['1']) ['4']) ['5']
    simp only [List.length_cons, List.length_nil] at this
    omega
  simp only [Style.set_style]
  rw [show ((new_set_style_buffer, 0) : List (Option Char) × Nat) =
    (goodBuf [], ([] : List Char).length) from rfl]
  rw [style_step_color_goodBuf (fg != Color.Default) fg.foreground_code []
    (by omega)]
  simp only [Option.bind_eq_bind, Option.some_bind]
  rw [style_step_color_goodBuf (bg != Color.Default) bg.background_code
    (emitIf (fg != Color.Default) [] fg.foreground_code.data) (by omega)]
  simp only [Option.bind_eq_bind, Option.some_bind]
  rw [style_step_ascii_goodBuf b '1' (emitIf (bg != Color.Default) (emitIf (fg != Color.Default) [] fg.foreground_code.data) bg.background_code.data) (by omega) (by decide)]
  simp only [Option.bind_eq_bind, Option.some_bind]
  rw [style_step_ascii_goodBuf u '4' (emitIf b (emitIf (bg != Color.Default) (emitIf (fg != Color.Default) [] fg.foreground_code.data) bg.background_code.data) ['1']) (by omega) (by decide)]
  simp only [Option.bind_eq_bind, Option.some_bind]
  rw [style_step_ascii_goodBuf l '5' (emitIf u (emitIf b (emitIf (bg != Color.Default) (emitIf (fg != Color.Default) [] fg.foreground_code.data) bg.background_code.data) ['1']) ['4']) (by omega) (by decide)]
  simp only [Option.bind_eq_bind, Option.some_bind]
  have hfin : (finalizeStyle (emitIf l (emitIf u (emitIf b (emitIf (bg != Color.Default) (emitIf (fg != Color.Default) [] fg.foreground_code.data) bg.background_code.data) ['1']) ['4']) ['5'])).length ≤ 15 := by
    have := finalize_length_le (emitIf l (emitIf u (emitIf b (emitIf (bg != Color.Default) (emitIf (fg != Color.Default) [] fg.foreground_code.data) bg.background_code.data) ['1']) ['4']) ['5'])
    omega
  rw [style_final_goodBuf (emitIf l (emitIf u (emitIf b (emitIf (bg != Color.Default) (emitIf (fg != Color.Default) [] fg.foreground_code.data) bg.background_code.data) ['1']) ['4']) ['5']) hfin]
  simp only [Option.bind_eq_bind, Option.some_bind]
  rw [take_mapM_goodBuf]
  simp only [Option.bind_eq_bind, Option.some_bind]
  rfl


/-- Spec-side description of the encoder output: the list of emitted parts, in
the fixed order foreground color, background color, bold, underline, blink,
keeping only the parts that differ from the "no styling" baseline. -/
def styleParts (s : Style) : List String :=
  (if s.foreground_color != Color.Default then [s.foreground_color.foreground_code] else []) ++
  (if s.background_color != Color.Default then [s.background_color.background_code] else []) ++
  (if s.bold then ["1"] else []) ++
  (if s.underlined then ["4"] else []) ++
  (if s.blinking then ["5"] else [])

/-- Spec-side rendering of a part list: the parts joined by `;`, wrapped in the
Control Sequence Introducer and the final `m` only when at least one part is
present; an empty part list renders to the empty string. -/
def renderParts (ps : List String) : String :=
  if ps.isEmpty then "" else "\x1b[" ++ String.intercalate ";" ps ++ "m"

/-- Number of non-default fields of a style. -/
def nonDefaultCount (s : Style) : Nat :=
  (if s.foreground_color != Color.Default then 1 else 0) +
  (if s.background_color != Color.Default then 1 else 0) +
  (if s.bold then 1 else 0) +
  (if s.underlined then 1 else 0) +
  (if s.blinking then 1 else 0)

lemma styleChars_render (s : Style) :
    String.mk (styleChars s) = renderParts (styleParts s) := by
  obtain ⟨fg, bg, b, u, l⟩ := s
  by_cases hfg : (fg != Color.Default) = true <;> by_cases hbg : (bg != Color.Default) = true <;>
    cases b <;> cases u <;> cases l <;>
      · apply String.ext
        simp [styleChars, styleParts, renderParts, emitIf, emit, finalizeStyle, hfg, hbg,
          String.intercalate, String.intercalate.go]

lemma intercalate_go_count (bs : List String) :
    ∀ acc : String, (∀ p ∈ bs, p.data.count ';' = 0) →
      (String.intercalate.go acc ";" bs).data.count ';' =
        acc.data.count ';' + bs.length := by
  induction bs with
  | nil =>
    intro acc _
    rfl
  | cons p bs ih =>
    intro acc hp
    rw [String.intercalate.go]
    rw [ih (acc ++ ";" ++ p) (fun q hq => hp q (List.mem_cons_of_mem p hq))]
    have hp0 := hp p (List.mem_cons_self p bs)
    simp [List.count_append, hp0, List.length_cons]
    omega

lemma renderParts_count (ps : List String) (hp : ∀ p ∈ ps, p.data.count ';' = 0) :
    (renderParts ps).data.count ';' = ps.length - 1 := by
  cases ps with
  | nil => rfl
  | cons p ps =>
    simp only [renderParts, List.isEmpty_cons, Bool.false_eq_true, if_false, if_neg]
    rw [String.intercalate]
    simp only [String.data_append, List.count_append]
    rw [intercalate_go_count ps p (fun q hq => hp q (List.mem_cons_of_mem p hq))]
    have hp0 := hp p (List.mem_cons_self p ps)
    simp [hp0]

lemma renderParts_affix (ps : List String) :
    ((renderParts ps).data.take 2 = ['\x1b', '['] ∧
      (renderParts ps).data.getLast? = some 'm') ↔ ps ≠ [] := by
  cases ps with
  | nil => simp [renderParts]
  | cons p ps =>
    simp only [renderParts, List.isEmpty_cons, Bool.false_eq_true, if_false, if_neg]
    constructor
    · intro
      exact List.cons_ne_nil p ps
    · intro
      constructor
      · rfl
      · rw [show ("\x1b[" ++ String.intercalate ";" (p :: ps) ++ "m").data =
          ("\x1b[" ++ String.intercalate ";" (p :: ps)).data ++ ['m'] from rfl]
        exact List.getLast?_concat _


lemma foreground_code_count (c : Color) : (Color.foreground_code c).data.count ';' = 0 := by
  cases c <;> decide

lemma background_code_count (c : Color) : (Color.background_code c).data.count ';' = 0 := by
  cases c <;> decide

lemma styleParts_length (s : Style) : (styleParts s).length = nonDefaultCount s := by
  obtain ⟨fg, bg, b, u, l⟩ := s
  simp only [styleParts, nonDefaultCount, List.length_append, apply_ite List.length,
    List.length_cons, List.length_nil]

lemma styleParts_count (s : Style) : ∀ p ∈ styleParts s, p.data.count ';' = 0 := by
  obtain ⟨fg, bg, b, u, l⟩ := s
  intro p hp
  simp only [styleParts, List.mem_append] at hp
  rcases hp with ((((hp | hp) | hp) | hp) | hp) <;>
    · rcases (by split at hp <;> simp_all : p = Color.foreground_code fg ∨
        p = Color.background_code bg ∨ p = "1" ∨ p = "4" ∨ p = "5") with
        h | h | h | h | h <;> subst h <;>
        first
          | exact foreground_code_count fg
          | exact background_code_count bg
          | decide

lemma styleChars_length_le (s : Style) : (styleChars s).length ≤ 15 := by
  obtain ⟨fg, bg, b, u, l⟩ := s
  have lf := foreground_code_data_length fg
  have lb := background_code_data_length bg
  have b1 : (emitIf (fg != Color.Default) [] fg.foreground_code.data).length ≤ 4 := by
    have := emitIf_length_le (fg != Color.Default) [] fg.foreground_code.data
    simp only [List.length_nil] at this
    omega
  have b2 : (emitIf (bg != Color.Default)
      (emitIf (fg != Color.Default) [] fg.foreground_code.data)
      bg.background_code.data).length ≤ 8 := by
    have := emitIf_length_le (bg != Color.Default)
      (emitIf (fg != Color.Default) [] fg.foreground_code.data) bg.background_code.data
    omega
  have b3 : (emitIf b (emitIf (bg != Color.Default)
      (emitIf (fg != Color.Default) [] fg.foreground_code.data)
      bg.background_code.data) ['1']).length ≤ 10 := by
    have := emitIf_length_le b (emitIf (bg != Color.Default)
      (emitIf (fg != Color.Default) [] fg.foreground_code.data)
      bg.background_code.data) ['1']
    simp only [List.length_cons, List.length_nil] at this
    omega
  have b4 : (emitIf u (emitIf b (emitIf (bg != Color.Default)
      (emitIf (fg != Color.Default) [] fg.foreground_code.data)
      bg.background_code.data) ['1']) ['4']).length ≤ 12 := by
    have := emitIf_length_le u (emitIf b (emitIf (bg != Color.Default)
      (emitIf (fg != Color.Default) [] fg.foreground_code.data)
      bg.background_code.data) ['1']) ['4']
    simp only [List.length_cons, List.length_nil] at this
    omega
  have b5 : (emitIf l (emitIf u (emitIf b (emitIf (bg != Color.Default)
      (emitIf (fg != Color.Default) [] fg.foreground_code.data)
      bg.background_code.data) ['1']) ['4']) ['5']).length ≤ 14 := by
    have := emitIf_length_le l (emitIf u (emitIf b (emitIf (bg != Color.Default)
      (emitIf (fg != Color.Default) [] fg.foreground_code.data)
      bg.background_code.data) ['1']) ['4']) ['5']
    simp only [List.length_cons, List.length_nil] at this
    omega
  have hfin := finalize_length_le (emitIf l (emitIf u (emitIf b (emitIf (bg != Color.Default)
    (emitIf (fg != Color.Default) [] fg.foreground_code.data)
    bg.background_code.data) ['1']) ['4']) ['5'])
  simp only [styleChars]
  omega

/-- C3: for every style, the encoder emits exactly the parts that differ from
the baseline, in the fixed order foreground color, background color, bold,
underline, blink, joined by single `;` separators (the equality with
`renderParts (styleParts s)`); the output contains exactly `N - 1` semicolons
(truncated subtraction, so 0 for `N = 0`), and begins with `ESC[` and ends with
`m` if and only if `N > 0`, where `N` is the number of non-default fields. -/
theorem claim_C3_parts_order_separators_delimiters : ∀ s : Style,
    ∃ r : String, s.set_style = some r ∧
      r = renderParts (styleParts s) ∧
      r.data.count ';' = nonDefaultCount s - 1 ∧
      ((r.data.take 2 = ['\x1b', '['] ∧ r.data.getLast? = some 'm') ↔ 0 < nonDefaultCount s) := by
  intro s
  refine ⟨renderParts (styleParts s), ?_, rfl, ?_, ?_⟩
  · rw [set_style_chars s, styleChars_render s]
  · rw [renderParts_count _ (styleParts_count s), styleParts_length]
  · rw [renderParts_affix, ← styleParts_length s]
    exact (List.length_pos).symm

/-- C9: for every style, `set_style` on the 15-byte buffer never performs an
out-of-bounds access (in the embedding, every buffer access is bounds-checked
and a violation yields `none`, so a `some` result means all accesses were in
bounds), and the returned view holds at most 15 bytes. -/
theorem claim_C9_buffer_capacity_safe : ∀ s : Style,
    ∃ r : String, s.set_style = some r ∧ r.length ≤ 15 := by
  intro s
  refine ⟨renderParts (styleParts s), ?_, ?_⟩
  · rw [set_style_chars s, styleChars_render s]
  · rw [← styleChars_render s]
    exact styleChars_length_le s

/-- C2: the style whose every field equals its default encodes to an empty
result — zero bytes, not `ESC[m`. -/
theorem claim_C2_default_style_encodes_empty :
    Style.set_style Style.default = some "" := by decide

/-- C4: the two concrete encodings stated by the spec, byte for byte. -/
theorem claim_C4_concrete_encodings :
    Style.set_style
      { foreground_color := Color.White, background_color := Color.Blue,
        bold := false, underlined := false, blinking := false } = some "\x1b[97;44m" ∧
    Style.set_style
      { foreground_color := Color.Cyan, background_color := Color.DarkGray,
        bold := true, underlined := true, blinking := true } = some "\x1b[36;100;1;4;5m" := by
  decide


/-- True when every character of the string is a decimal digit. -/
def isDigitString (s : String) : Bool :=
  s.data.all fun c => 48 ≤ c.toNat && c.toNat ≤ 57

/-- The natural number denoted by a string of decimal digits. -/
def decimalValue (s : String) : Nat :=
  s.data.foldl (fun n c => n * 10 + (c.toNat - 48)) 0

/-- The foreground code table as the spec states it: 39 for `Default`, 30–37 for
the eight base colors, 90–97 for the eight bright variants. -/
def spec_foreground_number : Color → Nat
  | .Default => 39
  | .Black => 30
  | .Red => 31
  | .Green => 32
  | .Yellow => 33
  | .Blue => 34
  | .Magena => 35
  | .Cyan => 36
  | .LightGray => 37
  | .DarkGray => 90
  | .LightRed => 91
  | .LightGreen => 92
  | .LightYellow => 93
  | .LightBlue => 94
  | .LightMagenta => 95
  | .LightCyan => 96
  | .White => 97

/-- C5 counterexample: the claim asserts the `Default` background code 49 is not
derived by the +10 offset rule and that the bright background codes are not a
pure +10 shift of the bright foreground codes; in the code 49 = 39 + 10 and
107 = 97 + 10 (likewise for every bright color), so both exception clauses are
false. -/
theorem claim_C5_exception_clauses_false :
    decimalValue (Color.background_code Color.Default) = 49 ∧
    decimalValue (Color.foreground_code Color.Default) = 39 ∧
    decimalValue (Color.background_code Color.Default) =
      decimalValue (Color.foreground_code Color.Default) + 10 ∧
    decimalValue (Color.background_code Color.White) = 107 ∧
    decimalValue (Color.foreground_code Color.White) = 97 ∧
    decimalValue (Color.background_code Color.White) =
      decimalValue (Color.foreground_code Color.White) + 10 := by decide

/-- C5 amended: the encoder's numeric codes are foreground 30–37 for the eight
base colors, 90–97 for the bright variants and 39 for `Default` (the
`spec_foreground_number` table), and every background code — including the
`Default` code 49 and the bright codes 100–107 — is its foreground code plus the
fixed offset 10; the attribute codes are bold=1, underline=4, blink=5, and the
reset sequence is the fixed constant `ESC[0m`. -/
theorem claim_C5_numeric_codes_amended :
    (∀ c : Color, isDigitString (Color.foreground_code c) = true ∧
      isDigitString (Color.background_code c) = true ∧
      decimalValue (Color.foreground_code c) = spec_foreground_number c ∧
      decimalValue (Color.background_code c) = spec_foreground_number c + 10) ∧
    Style.set_style
      { foreground_color := Color.Default, background_color := Color.Default,
        bold := true, underlined := false, blinking := false } = some "\x1b[1m" ∧
    Style.set_style
      { foreground_color := Color.Default, background_color := Color.Default,
        bold := false, underlined := true, blinking := false } = some "\x1b[4m" ∧
    Style.set_style
      { foreground_color := Color.Default, background_color := Color.Default,
        bold := false, underlined := false, blinking := true } = some "\x1b[5m" ∧
    RESET_STYLE = "\x1b[0m" := by decide

/-- C10: for every one of the 17 colors, including `Default` and the eight
bright variants, the numeric background code equals the numeric foreground code
plus exactly 10 — the offset rule is uniform with no exceptions. -/
theorem claim_C10_uniform_background_offset : ∀ c : Color,
    isDigitString (Color.foreground_code c) = true ∧
    isDigitString (Color.background_code c) = true ∧
    decimalValue (Color.background_code c) = decimalValue (Color.foreground_code c) + 10 := by
  decide

/-! ### Stream capability cache (`src/stream_info.rs`) -/

/-- Raw line width value indicating that the raw line width has not yet been
determined (`RAW_LINE_WIDTH_UNKNOWN`). -/
def RAW_LINE_WIDTH_UNKNOWN : Int := -2

/-- Raw line width value indicating that a stream does not refer to a terminal,
or the terminal width cannot be determined (`RAW_LINE_WIDTH_NONE`). -/
def RAW_LINE_WIDTH_NONE : Int := -1

/-- Default line width, returned by `StreamInfo::line_width` if the stream does
not refer to a terminal or the terminal width cannot be determined
(`DEFAULT_LINE_WIDTH`). -/
def DEFAULT_LINE_WIDTH : Nat := 80

/-- Whether to use colors and other styling (`ColorMode` in `stream_info.rs`). -/
inductive ColorMode where
  | Auto
  | Never
  | Always
deriving DecidableEq, Repr

/-- The discriminant of a `ColorMode` as stored in the `AtomicU8` field
(`color_mode as isize as u8`). -/
def ColorMode.toRaw : ColorMode → Nat
  | .Auto => 0
  | .Never => 1
  | .Always => 2

/-- Value indicating that the cached `NO_COLOR` flag has not yet been
determined (`ENV_NO_COLOR_UNKNOWN`). -/
def ENV_NO_COLOR_UNKNOWN : Int := -1

/-- Process-wide environment state: the `NO_COLOR` variable itself (`none` when
unset, mirroring `env::var_os("NO_COLOR")`) together with the cached flag
`ENV_NO_COLOR` (a single `static AtomicI8`, shared by every stream instance:
`-1` when unknown, otherwise a `bool` cast to `i8`). -/
structure Env where
  no_color_var : Option String
  ENV_NO_COLOR : Int
deriving DecidableEq, Repr

/-- `Option::is_none_or`, as called in `env_no_color`. -/
def is_none_or (o : Option String) (p : String → Bool) : Bool :=
  match o with
  | none => true
  | some value => p value

/-- `env_no_color()`: whether the `NO_COLOR` environment variable is set to a
non-empty value, read from the environment on the first call and cached in
`ENV_NO_COLOR` thereafter. Returns the flag together with the updated process
state. -/
def env_no_color (env : Env) : Bool × Env :=
  let e := env.ENV_NO_COLOR
  if e = ENV_NO_COLOR_UNKNOWN then
    let e : Int := if !(is_none_or env.no_color_var fun value => value.isEmpty) then 1 else 0
    (e != 0, { env with ENV_NO_COLOR := e })
  else
    (e != 0, env)

/-- Per-stream state (`StreamInfo`). The `terminal_size` field stands in for the
`TerminalSize` collaborator: `some width` when `terminal_size()` returns
`Some((Width(width), _))` — the stream is a terminal whose width is
determinable — and `none` otherwise. The probe is a pure, idempotent OS query,
so it is a fixed value of the instance. `raw_color_mode` is the `AtomicU8`
holding a `ColorMode` discriminant, `raw_line_width` the `AtomicI32`. -/
structure StreamInfo where
  terminal_size : Option Nat
  raw_color_mode : Nat
  raw_line_width : Int
deriving DecidableEq, Repr

/-- `StreamInfo::new`. -/
def StreamInfo.new (terminal_size : Option Nat) : StreamInfo :=
  { terminal_size := terminal_size
    raw_color_mode := ColorMode.Auto.toRaw
    raw_line_width := RAW_LINE_WIDTH_UNKNOWN }

/-- `StreamInfo::get_raw_line_width`: the raw line width, probed on the first
call and cached thereafter. The `width as i32` cast is exact because the probed
width is a `u16`. -/
def StreamInfo.get_raw_line_width (self : StreamInfo) : Int × StreamInfo :=
  let raw_line_width := self.raw_line_width
  if raw_line_width = RAW_LINE_WIDTH_UNKNOWN then
    let raw_line_width : Int :=
      match self.terminal_size with
      | some width => (width : Int)
      | none => RAW_LINE_WIDTH_NONE
    (raw_line_width, { self with raw_line_width := raw_line_width })
  else
    (raw_line_width, self)

/-- `StreamInfo::line_width`. The `raw_line_width as u16` cast on the
non-negative branch is modelled as `% 2 ^ 16`. -/
def StreamInfo.line_width (self : StreamInfo) : Nat × StreamInfo :=
  let r := self.get_raw_line_width
  if 0 ≤ r.1 then
    (r.1.toNat % 2 ^ 16, r.2)
  else
    (DEFAULT_LINE_WIDTH, r.2)

/-- `StreamInfo::use_color`. The `&&` in the source short-circuits, so when
`env_no_color()` is true the width probe is not consulted. -/
def StreamInfo.use_color (self : StreamInfo) (env : Env) : Bool × StreamInfo × Env :=
  let color_mode := self.raw_color_mode
  if color_mode = ColorMode.Auto.toRaw then
    let re := env_no_color env
    let rs :=
      if re.1 then
        (false, self)
      else
        let rw := self.get_raw_line_width
        (rw.1 != RAW_LINE_WIDTH_NONE, rw.2)
    let color_mode := if rs.1 then ColorMode.Always.toRaw else ColorMode.Never.toRaw
    ((color_mode == ColorMode.Always.toRaw : Bool),
      { rs.2 with raw_color_mode := color_mode }, re.2)
  else
    ((color_mode == ColorMode.Always.toRaw : Bool), self, env)

/-- `StreamInfo::set_color_mode`. -/
def StreamInfo.set_color_mode (self : StreamInfo) (color_mode : ColorMode) : StreamInfo :=
  { self with raw_color_mode := color_mode.toRaw }

/-- The stream refers to a terminal whose width is determinable. -/
def StreamInfo.is_terminal (self : StreamInfo) : Bool := self.terminal_size.isSome

/-- The `NO_COLOR` environment variable is set to a non-empty string. -/
def Env.no_color_set (env : Env) : Bool :=
  !(is_none_or env.no_color_var fun value => value.isEmpty)

/-- The cached `NO_COLOR` flag is either still unknown or agrees with the
current environment. -/
def Env.coherent (env : Env) : Prop :=
  env.ENV_NO_COLOR = ENV_NO_COLOR_UNKNOWN ∨
    env.ENV_NO_COLOR = (if env.no_color_set then 1 else 0)

/-- The cached raw line width is either still unknown or agrees with the
probe's outcome. -/
def StreamInfo.width_coherent (self : StreamInfo) : Prop :=
  self.raw_line_width = RAW_LINE_WIDTH_UNKNOWN ∨
    self.raw_line_width = (match self.terminal_size with
      | some width => (width : Int)
      | none => RAW_LINE_WIDTH_NONE)

/-- C1: for every stream-capability instance, `use_color` resolves in this
exact order — an explicit `Never` override returns `false` and an explicit
`Always` override returns `true`, both regardless of the environment and
terminal state; otherwise (mode `Auto`, with the caches coherent) the result is
`false` when `NO_COLOR` is set to a non-empty string, `true` when the stream
refers to a terminal whose width is determinable, and `false` otherwise. -/
theorem claim_C1_use_color_resolution_order (self : StreamInfo) (env : Env) :
    ((self.set_color_mode ColorMode.Never).use_color env).1 = false ∧
    ((self.set_color_mode ColorMode.Always).use_color env).1 = true ∧
    (self.raw_color_mode = ColorMode.Auto.toRaw → env.coherent → self.width_coherent →
      (self.use_color env).1 = (!env.no_color_set && self.is_terminal)) := by
  refine ⟨?_, ?_, ?_⟩
  · simp [StreamInfo.use_color, StreamInfo.set_color_mode, ColorMode.toRaw]
  · simp [StreamInfo.use_color, StreamInfo.set_color_mode, ColorMode.toRaw]
  · intro hmode hc hw
    simp only [StreamInfo.use_color, hmode, ColorMode.toRaw, if_pos rfl]
    have henv : (env_no_color env).1 = env.no_color_set := by
      rcases hc with hc | hc
      · simp [env_no_color, hc, ENV_NO_COLOR_UNKNOWN, Env.no_color_set]
        split <;> simp_all
      · by_cases hs : env.no_color_set
        · simp_all [env_no_color, ENV_NO_COLOR_UNKNOWN]
        · simp_all [env_no_color, ENV_NO_COLOR_UNKNOWN]
    by_cases hnc : env.no_color_set
    · simp [henv, hnc]
    · simp only [henv, hnc, Bool.false_eq_true, if_neg, Bool.not_false, Bool.true_and]
      rcases hw with hw | hw
      · simp only [StreamInfo.get_raw_line_width, hw, if_pos rfl]
        cases hts : self.terminal_size with
        | none => simp [RAW_LINE_WIDTH_NONE, StreamInfo.is_terminal, hts]
        | some w =>
          simp only [hts]
          have : ((w : Int) != RAW_LINE_WIDTH_NONE) = true := by
            simp [RAW_LINE_WIDTH_NONE]
          simp [this, StreamInfo.is_terminal, hts]
      · simp only [StreamInfo.get_raw_line_width, hw]
        cases hts : self.terminal_size with
        | none =>
          simp [hts, RAW_LINE_WIDTH_NONE, RAW_LINE_WIDTH_UNKNOWN, StreamInfo.is_terminal]
        | some w =>
          have h1 : ((w : Int) = RAW_LINE_WIDTH_UNKNOWN) = False := by
            simp [RAW_LINE_WIDTH_UNKNOWN]
          have h2 : ((w : Int) != RAW_LINE_WIDTH_NONE) = true := by
            simp [RAW_LINE_WIDTH_NONE]
          simp [hts, h1, h2, StreamInfo.is_terminal]


lemma get_raw_line_width_spec (self : StreamInfo) :
    (self.get_raw_line_width).2.terminal_size = self.terminal_size ∧
    (self.get_raw_line_width).2.raw_color_mode = self.raw_color_mode ∧
    (self.get_raw_line_width).2.raw_line_width = (self.get_raw_line_width).1 ∧
    (self.get_raw_line_width).1 ≠ RAW_LINE_WIDTH_UNKNOWN ∧
    (self.raw_line_width ≠ RAW_LINE_WIDTH_UNKNOWN →
      self.get_raw_line_width = (self.raw_line_width, self)) := by
  by_cases h : self.raw_line_width = RAW_LINE_WIDTH_UNKNOWN
  · simp only [StreamInfo.get_raw_line_width, h, if_pos rfl]
    cases hts : self.terminal_size with
    | none => simp [hts, RAW_LINE_WIDTH_NONE, RAW_LINE_WIDTH_UNKNOWN, h]
    | some w =>
      have h1 : ((w : Int) = RAW_LINE_WIDTH_UNKNOWN) = False := by
        simp [RAW_LINE_WIDTH_UNKNOWN]
      simp [hts, h1, h]
  · simp [StreamInfo.get_raw_line_width, h]

lemma use_color_spec (self : StreamInfo) (env : Env) :
    (self.use_color env).2.1.raw_color_mode ≠ ColorMode.Auto.toRaw ∧
    (self.use_color env).1 =
      ((self.use_color env).2.1.raw_color_mode == ColorMode.Always.toRaw) ∧
    (self.use_color env).2.1.terminal_size = self.terminal_size ∧
    (self.raw_color_mode ≠ ColorMode.Auto.toRaw →
      self.use_color env = ((self.raw_color_mode == ColorMode.Always.toRaw), self, env)) ∧
    (self.raw_line_width ≠ RAW_LINE_WIDTH_UNKNOWN →
      (self.use_color env).2.1.raw_line_width = self.raw_line_width) := by
  by_cases h0 : self.raw_color_mode = ColorMode.Auto.toRaw
  · simp only [StreamInfo.use_color, h0, if_pos rfl]
    obtain ⟨g1, g2, g3, g4, g5⟩ := get_raw_line_width_spec self
    by_cases hnc : (env_no_color env).1
    · simp [hnc, ColorMode.toRaw, h0]
    · by_cases hterm : ((self.get_raw_line_width).1 != RAW_LINE_WIDTH_NONE) = true
      · simp only [hnc, hterm, Bool.false_eq_true, if_neg, if_pos, ColorMode.toRaw]
        refine ⟨by simp, by simp, by simpa using g1, by simp [h0], ?_⟩
        intro hres
        simp [g5 hres]
      · simp only [hnc, Bool.false_eq_true, if_neg, Bool.not_eq_true] at hterm ⊢
        simp only [hterm, ColorMode.toRaw]
        refine ⟨by simp, by simp, by simpa using g1, by simp [h0], ?_⟩
        intro hres
        simp [g5 hres]
  · simp [StreamInfo.use_color, h0]

lemma line_width_spec (self : StreamInfo) :
    (self.line_width).2.terminal_size = self.terminal_size ∧
    (self.line_width).2.raw_color_mode = self.raw_color_mode ∧
    (self.line_width).2.raw_line_width ≠ RAW_LINE_WIDTH_UNKNOWN ∧
    (self.raw_line_width ≠ RAW_LINE_WIDTH_UNKNOWN → (self.line_width).2 = self) ∧
    (self.line_width).1 =
      (if 0 ≤ (self.line_width).2.raw_line_width then
        (self.line_width).2.raw_line_width.toNat % 2 ^ 16
      else DEFAULT_LINE_WIDTH) := by
  obtain ⟨g1, g2, g3, g4, g5⟩ := get_raw_line_width_spec self
  by_cases h : 0 ≤ (self.get_raw_line_width).1
  · have hlw : self.line_width =
        ((self.get_raw_line_width).1.toNat % 2 ^ 16, (self.get_raw_line_width).2) := by
      simp only [StreamInfo.line_width]
      rw [if_pos h]
    rw [hlw]
    refine ⟨g1, g2, by rw [g3]; exact g4, ?_, ?_⟩
    · intro hres
      rw [g5 hres]
    · rw [g3, if_pos h]
  · have hlw : self.line_width = (DEFAULT_LINE_WIDTH, (self.get_raw_line_width).2) := by
      simp only [StreamInfo.line_width]
      rw [if_neg h]
    rw [hlw]
    refine ⟨g1, g2, by rw [g3]; exact g4, ?_, ?_⟩
    · intro hres
      rw [g5 hres]
    · rw [g3, if_neg h]

lemma env_no_color_spec (env : Env) :
    (env_no_color env).2.no_color_var = env.no_color_var ∧
    (env_no_color env).2.ENV_NO_COLOR ≠ ENV_NO_COLOR_UNKNOWN ∧
    (env_no_color env).1 = ((env_no_color env).2.ENV_NO_COLOR != 0) ∧
    (env.ENV_NO_COLOR = ENV_NO_COLOR_UNKNOWN →
      (env_no_color env).2.ENV_NO_COLOR = (if env.no_color_set then 1 else 0)) ∧
    (env.ENV_NO_COLOR ≠ ENV_NO_COLOR_UNKNOWN →
      env_no_color env = ((env.ENV_NO_COLOR != 0), env)) := by
  by_cases h : env.ENV_NO_COLOR = ENV_NO_COLOR_UNKNOWN
  · simp only [env_no_color, h, if_pos rfl]
    by_cases hs : env.no_color_set
    · simp_all [Env.no_color_set, ENV_NO_COLOR_UNKNOWN]
    · simp_all [Env.no_color_set, ENV_NO_COLOR_UNKNOWN]
  · simp [env_no_color, h]


lemma use_color_env_resolved (other : StreamInfo) (e : Env)
    (he : e.ENV_NO_COLOR ≠ ENV_NO_COLOR_UNKNOWN) (var₂ : Option String) :
    (other.use_color { e with no_color_var := var₂ }).1 = (other.use_color e).1 := by
  by_cases h0 : other.raw_color_mode = ColorMode.Auto.toRaw
  · simp only [StreamInfo.use_color, h0, if_pos rfl]
    have h1 := (env_no_color_spec { e with no_color_var := var₂ }).2.2.2.2 he
    have h2 := (env_no_color_spec e).2.2.2.2 he
    rw [h1, h2]
    simp
  · rw [(use_color_spec other { e with no_color_var := var₂ }).2.2.2.1 h0,
      (use_color_spec other e).2.2.2.1 h0]

/-- C6: for every stream-capability instance whose width cache is coherent,
`line_width` returns the probed terminal width when the stream refers to a
terminal whose width is obtainable, and the fixed default 80 otherwise, and the
returned value is always positive. The hypothesis `hpos` records the
collaborator's contract: the probed width is a `u16` and the `terminal_size`
crate reports a size only when both dimensions are positive. -/
theorem claim_C6_line_width_probe_or_default (self : StreamInfo)
    (hw : self.width_coherent)
    (hpos : ∀ width, self.terminal_size = some width → 0 < width ∧ width < 2 ^ 16) :
    (∀ width, self.terminal_size = some width → (self.line_width).1 = width) ∧
    (self.terminal_size = none → (self.line_width).1 = DEFAULT_LINE_WIDTH) ∧
    0 < (self.line_width).1 := by
  obtain ⟨g1, g2, g3, g4, g5⟩ := get_raw_line_width_spec self
  have hraw : (self.get_raw_line_width).1 =
      (match self.terminal_size with
       | some width => (width : Int)
       | none => RAW_LINE_WIDTH_NONE) := by
    rcases hw with hw | hw
    · simp [StreamInfo.get_raw_line_width, hw]
    · have hne : self.raw_line_width ≠ RAW_LINE_WIDTH_UNKNOWN := by
        rw [hw]
        cases hts : self.terminal_size with
        | none => simp [RAW_LINE_WIDTH_NONE, RAW_LINE_WIDTH_UNKNOWN]
        | some w => simp [RAW_LINE_WIDTH_UNKNOWN]
      rw [g5 hne]
      exact hw
  have hlw1 : (self.line_width).1 =
      (if 0 ≤ (self.get_raw_line_width).1 then
        (self.get_raw_line_width).1.toNat % 2 ^ 16
      else DEFAULT_LINE_WIDTH) := by
    simp only [StreamInfo.line_width]
    by_cases h : 0 ≤ (self.get_raw_line_width).1
    · rw [if_pos h, if_pos h]
    · rw [if_neg h, if_neg h]
  refine ⟨?_, ?_, ?_⟩
  · intro w hts
    have hraw2 : (self.get_raw_line_width).1 = (w : Int) := by rw [hraw, hts]
    have hb := (hpos w hts).2
    rw [hlw1, hraw2, if_pos (Int.natCast_nonneg w)]
    omega
  · intro hts
    have hraw2 : (self.get_raw_line_width).1 = RAW_LINE_WIDTH_NONE := by rw [hraw, hts]
    rw [hlw1, hraw2, if_neg (by decide)]
  · cases hts : self.terminal_size with
    | some w =>
      have hraw2 : (self.get_raw_line_width).1 = (w : Int) := by rw [hraw, hts]
      have h1 := (hpos w hts).1
      have hb := (hpos w hts).2
      rw [hlw1, hraw2, if_pos (Int.natCast_nonneg w)]
      omega
    | none =>
      have hraw2 : (self.get_raw_line_width).1 = RAW_LINE_WIDTH_NONE := by rw [hraw, hts]
      rw [hlw1, hraw2, if_neg (by decide)]
      decide

/-- C7: one `use_color` call resolves the cached color mode to a concrete
non-`Auto` value, and afterwards repeated calls return the identical result and
leave the state untouched for every later environment and probe outcome (so
neither the terminal probe nor the environment query can influence them); one
`line_width` call resolves the cached raw width, and afterwards repeated calls
return the identical result and leave the state untouched for every later probe
outcome; and a cached value, once concrete, is never changed by `use_color` or
`line_width` — only `set_color_mode` overwrites the mode. -/
theorem claim_C7_memoized_caches (self : StreamInfo) (env : Env) :
    ((self.use_color env).2.1.raw_color_mode ≠ ColorMode.Auto.toRaw ∧
     (∀ (env₂ : Env) (ts₂ : Option Nat),
       ({ (self.use_color env).2.1 with terminal_size := ts₂ } : StreamInfo).use_color env₂ =
         ((self.use_color env).1,
          { (self.use_color env).2.1 with terminal_size := ts₂ }, env₂))) ∧
    ((self.line_width).2.raw_line_width ≠ RAW_LINE_WIDTH_UNKNOWN ∧
     (∀ ts₂ : Option Nat,
       ({ (self.line_width).2 with terminal_size := ts₂ } : StreamInfo).line_width =
         ((self.line_width).1, { (self.line_width).2 with terminal_size := ts₂ }))) ∧
    (self.raw_color_mode ≠ ColorMode.Auto.toRaw →
      (self.use_color env).2.1.raw_color_mode = self.raw_color_mode) ∧
    ((self.line_width).2.raw_color_mode = self.raw_color_mode) ∧
    (self.raw_line_width ≠ RAW_LINE_WIDTH_UNKNOWN →
      (self.use_color env).2.1.raw_line_width = self.raw_line_width ∧
      (self.line_width).2.raw_line_width = self.raw_line_width) := by
  obtain ⟨u1, u2, u3, u4, u5⟩ := use_color_spec self env
  obtain ⟨l1, l2, l3, l4, l5⟩ := line_width_spec self
  refine ⟨⟨u1, ?_⟩, ⟨l3, ?_⟩, ?_, l2, ?_⟩
  · intro env₂ ts₂
    have h := (use_color_spec
      ({ (self.use_color env).2.1 with terminal_size := ts₂ } : StreamInfo) env₂).2.2.2.1 u1
    rw [h, u2]
  · intro ts₂
    have hres : ({ (self.line_width).2 with terminal_size := ts₂ } : StreamInfo).raw_line_width ≠
        RAW_LINE_WIDTH_UNKNOWN := l3
    obtain ⟨m1, m2, m3, m4, m5⟩ :=
      line_width_spec ({ (self.line_width).2 with terminal_size := ts₂ } : StreamInfo)
    have hst := m4 hres
    refine Prod.ext_iff.mpr ⟨?_, hst⟩
    rw [m5, hst, l5]
  · intro h0
    rw [u4 h0]
  · intro hres
    exact ⟨u5 hres, by rw [l4 hres]⟩

/-- C8: the `NO_COLOR` flag disables automatic color usage exactly when the
variable is present with a non-empty value — absence or an empty value reads as
`false` — an explicit `Never`/`Always` override is unaffected by the
environment, the environment is queried at most once (after one resolution the
cached flag answers, whatever the variable is changed to), and the flag cache is
shared: once any `Auto`-mode instance resolves it, every other stream
instance's decision is independent of the environment variable. -/
theorem claim_C8_no_color_flag (env : Env) (self : StreamInfo) :
    (env.ENV_NO_COLOR = ENV_NO_COLOR_UNKNOWN →
      (env_no_color env).1 = (match env.no_color_var with
        | none => false
        | some value => !value.isEmpty)) ∧
    ((self.raw_color_mode = ColorMode.Never.toRaw ∨
      self.raw_color_mode = ColorMode.Always.toRaw) →
      ∀ env₂ : Env, (self.use_color env).1 = (self.use_color env₂).1) ∧
    ((env_no_color env).2.ENV_NO_COLOR ≠ ENV_NO_COLOR_UNKNOWN ∧
     ∀ var₂ : Option String,
       env_no_color { (env_no_color env).2 with no_color_var := var₂ } =
         ((env_no_color env).1, { (env_no_color env).2 with no_color_var := var₂ })) ∧
    (self.raw_color_mode = ColorMode.Auto.toRaw →
      ((self.use_color env).2.2.ENV_NO_COLOR ≠ ENV_NO_COLOR_UNKNOWN ∧
       ∀ (other : StreamInfo) (var₂ : Option String),
         (other.use_color
           { (self.use_color env).2.2 with no_color_var := var₂ }).1 =
           (other.use_color (self.use_color env).2.2).1)) := by
  obtain ⟨e1, e2, e3, e4, e5⟩ := env_no_color_spec env
  refine ⟨?_, ?_, ⟨e2, ?_⟩, ?_⟩
  · intro h
    simp only [env_no_color, h, if_pos rfl]
    cases hv : env.no_color_var with
    | none => simp [is_none_or, hv]
    | some v =>
      by_cases hve : v.isEmpty
      · simp [is_none_or, hv, hve]
      · simp [is_none_or, hv, hve]
  · intro h0 env₂
    have hne : self.raw_color_mode ≠ ColorMode.Auto.toRaw := by
      rcases h0 with h | h <;> simp [h, ColorMode.toRaw]
    rw [(use_color_spec self env).2.2.2.1 hne, (use_color_spec self env₂).2.2.2.1 hne]
  · intro var₂
    have h :=
      (env_no_color_spec { (env_no_color env).2 with no_color_var := var₂ }).2.2.2.2 e2
    rw [h, e3]
  · intro h0
    have henv : (self.use_color env).2.2 = (env_no_color env).2 := by
      simp [StreamInfo.use_color, h0]
    rw [henv]
    exact ⟨e2, fun other var₂ => use_color_env_resolved other _ e2 var₂⟩

/-- Witness for C1 at concrete inputs. -/
theorem claim_C1_witness :
    (((StreamInfo.new (some 120)).set_color_mode ColorMode.Never).use_color
        ⟨some "1", -1⟩).1 = false ∧
    (((StreamInfo.new (some 120)).set_color_mode ColorMode.Always).use_color
        ⟨some "1", -1⟩).1 = true ∧
    ((StreamInfo.new (some 120)).use_color ⟨some "1", -1⟩).1 = false := by
  obtain ⟨h1, h2, h3⟩ :=
    claim_C1_use_color_resolution_order (StreamInfo.new (some 120)) ⟨some "1", -1⟩
  refine ⟨h1, h2, ?_⟩
  rw [h3 (by decide) (Or.inl (by decide)) (Or.inl (by decide))]
  decide

/-- Witness for C6 at concrete inputs. -/
theorem claim_C6_witness :
    (((⟨some 120, 0, -2⟩ : StreamInfo).line_width).1 = 120 ∧
     0 < ((⟨some 120, 0, -2⟩ : StreamInfo).line_width).1) ∧
    ((⟨none, 0, -2⟩ : StreamInfo).line_width).1 = DEFAULT_LINE_WIDTH := by
  obtain ⟨ha, _, hc⟩ := claim_C6_line_width_probe_or_default ⟨some 120, 0, -2⟩
    (Or.inl rfl)
    (by intro w h; injection h with h; subst h; exact ⟨by decide, by decide⟩)
  obtain ⟨_, hb, _⟩ := claim_C6_line_width_probe_or_default ⟨none, 0, -2⟩
    (Or.inl rfl) (fun w h => Option.noConfusion h)
  exact ⟨⟨ha 120 rfl, hc⟩, hb rfl⟩

/-- Witness for C7 at concrete inputs. -/
theorem claim_C7_witness :
    ((⟨some 120, 1, 120⟩ : StreamInfo).use_color ⟨none, -1⟩).2.1.raw_color_mode = 1 ∧
    ((⟨some 120, 1, 120⟩ : StreamInfo).use_color ⟨none, -1⟩).2.1.raw_line_width = 120 ∧
    ((⟨some 120, 1, 120⟩ : StreamInfo).line_width).2.raw_line_width = 120 := by
  obtain ⟨_, _, hc, _, he⟩ := claim_C7_memoized_caches ⟨some 120, 1, 120⟩ ⟨none, -1⟩
  obtain ⟨he1, he2⟩ := he (by decide)
  exact ⟨hc (by decide), he1, he2⟩

/-- Witness for C8 at concrete inputs. -/
theorem claim_C8_witness :
    (env_no_color ⟨some "x", -1⟩).1 = true ∧
    ((⟨some 80, 1, -2⟩ : StreamInfo).use_color ⟨some "x", -1⟩).1 =
      ((⟨some 80, 1, -2⟩ : StreamInfo).use_color ⟨none, 7⟩).1 ∧
    ((⟨some 80, 0, -2⟩ : StreamInfo).use_color ⟨some "x", -1⟩).2.2.ENV_NO_COLOR ≠
      ENV_NO_COLOR_UNKNOWN := by
  obtain ⟨a1, a2, _, _⟩ := claim_C8_no_color_flag ⟨some "x", -1⟩ ⟨some 80, 1, -2⟩
  obtain ⟨_, _, _, b4⟩ := claim_C8_no_color_flag ⟨some "x", -1⟩ ⟨some 80, 0, -2⟩
  refine ⟨(a1 (by decide)).trans (by decide), a2 (Or.inl (by decide)) ⟨none, 7⟩, (b4 (by decide)).1⟩

end StyledOutput
